import Mathlib

/-!
Shallow embedding of the core data pipeline of the zera_chart repository
(series merger, gap interpolator, extremum detector, summary statistics),
translated from `src/consolidator.py` and
`src/generator/zera_tracker/visualizer.py` (the copy in
`src/src/zera_tracker/visualizer.py` has an identical `find_local_peaks`).

Modelling conventions:
- pandas DataFrames become `List Row`; the `date` column is a bijective image
  of the integer `timestamp` column (`datetime.fromtimestamp`), so it is
  represented by `timestamp` alone.
- Python floats become `ℚ` (the claims under study only involve exactly
  representable values, and all branch conditions in the source are
  order comparisons that agree with exact arithmetic on them).
- A float result that IEEE arithmetic turns into `inf`/`NaN` instead of
  raising (pandas/numpy vectorised division by zero) is modelled as `none`
  in an `Option ℚ` field.
- A Python-level raised exception (KeyError / IndexError on an empty
  DataFrame) is modelled as `Except.error`.
- `df.sort_values('timestamp')` is modelled as `List.mergeSort` on the
  timestamp; every property proved below about sorted output is
  independent of how equal timestamps are ordered.
- the `config.MIGRATION_DATES` dictionary read by the interpolator is
  passed as an explicit list of cutover timestamps, in iteration order.
-/

/-- Kind tag of an extremum marker; the tuples handed to
`filter_by_minimum_distance` are `(date, value)` or `(date, value, type)`,
the algorithm reads only the first two components. -/
inductive MarkerKind where
  | peak : MarkerKind
  | trough : MarkerKind
deriving DecidableEq, Repr

/-- One candidate extremum `(date, value, kind)` as produced by
`find_local_peaks` / `find_local_troughs` and consumed by
`filter_by_minimum_distance`. Dates are measured in days (the source
converts timestamp differences to days via `total_seconds() / 86400`). -/
structure MarkerPoint where
  date : ℚ
  value : ℚ
  kind : MarkerKind
deriving DecidableEq, Repr

/-- Minimum of a list, matching `numpy.min` on a nonempty array
(the source only ever takes minima of nonempty slices). -/
def listMin (xs : List ℚ) : ℚ := xs.foldl min (xs.headD 0)

/-- Maximum of a list, matching `numpy.max` on a nonempty array. -/
def listMax (xs : List ℚ) : ℚ := xs.foldl max (xs.headD 0)

/-- Python slice `xs[a:b]` (with the usual clamping). -/
def pySlice (xs : List ℚ) (a b : ℕ) : List ℚ := (xs.drop a).take (b - a)

/-- `find_local_peaks` from `src/generator/zera_tracker/visualizer.py`
lines 65-101. The input DataFrame is modelled as a list of
`(date, high)` pairs. -/
def find_local_peaks (df : List (ℚ × ℚ)) (window : ℕ) (prominence_threshold : ℚ) :
    List (ℚ × ℚ) :=
  if df.length < window * 2 then []
  else
    let highs := df.map Prod.snd
    let dates := df.map Prod.fst
    let price_range := listMax highs - listMin highs
    let min_prominence := price_range * prominence_threshold
    (List.range' window (df.length - window - window)).filterMap (fun i =>
      let hi := highs.getD i 0
      if (pySlice highs (i - window) i).all (fun x => decide (x ≤ hi)) &&
         (pySlice highs (i + 1) (i + window + 1)).all (fun x => decide (x ≤ hi)) then
        let left_min := listMin (pySlice highs (i - window) i)
        let right_min := listMin (pySlice highs (i + 1) (min highs.length (i + window + 1)))
        let prominence := hi - max left_min right_min
        if min_prominence ≤ prominence then some (dates.getD i 0, hi) else none
      else none)

/-- Body of the scan loop of `filter_by_minimum_distance` (visualizer.py
lines 162-179); the kept list is carried in reverse so that its head is
the last kept candidate (`filtered[-1]` in the source). -/
def fbmdStep (min_distance_days : ℚ) (acc : List MarkerPoint) (current : MarkerPoint) :
    List MarkerPoint :=
  match acc with
  | [] => [current]
  | last :: prev =>
    if min_distance_days ≤ current.date - last.date then
      current :: last :: prev
    else if abs last.value < abs current.value then
      current :: prev
    else
      last :: prev

/-- `filter_by_minimum_distance` from visualizer.py lines 143-181:
sort by date, always keep the first point, then keep each subsequent
candidate iff it is at least `min_distance_days` after the last kept one,
otherwise let it replace the last kept one iff it is strictly more
extreme in absolute value. -/
def filter_by_minimum_distance (points : List MarkerPoint) (min_distance_days : ℚ) :
    List MarkerPoint :=
  if points.length ≤ 1 then points
  else
    match points.mergeSort (fun a b => decide (a.date ≤ b.date)) with
    | [] => []
    | p0 :: rest => (rest.foldl (fbmdStep min_distance_days) [p0]).reverse

/-- One row of the unified DataFrame built by `create_unified_dataframe`
(consolidator.py lines 33-46 plus the derived columns of lines 55-56 and
the `is_interpolated` flag added at line 84). `open` is a Lean keyword,
hence the field name `open_`. -/
structure Row where
  timestamp : Int
  open_ : ℚ
  high : ℚ
  low : ℚ
  close : ℚ
  volume : ℚ
  pool_name : String
  pool_address : String
  token_symbol : String
  price_change : ℚ
  price_change_pct : Option ℚ
  is_interpolated : Bool
deriving DecidableEq, Repr

/-- Pool metadata, the `info` entry of the fetcher's per-pool dictionary
(config.py `POOLS`, used at consolidator.py lines 43-44). -/
structure PoolInfo where
  address : String
  token_symbol : String
deriving DecidableEq, Repr

/-- One parsed OHLCV entry (`fetcher.parse_ohlcv_data`). -/
structure OHLCVEntry where
  timestamp : Int
  open_ : ℚ
  high : ℚ
  low : ℚ
  close : ℚ
  volume : ℚ
deriving DecidableEq, Repr

/-- One pool's entry in `all_pool_data`: metadata plus parsed data,
where `none` models a falsy `'data'` field (failed fetch), which the
merger skips with a warning. -/
structure PoolData where
  info : PoolInfo
  data : Option (List OHLCVEntry)
deriving DecidableEq, Repr

/-- The record-collection loop of `create_unified_dataframe`
(consolidator.py lines 22-46): every entry of every pool that has data
becomes one record, tagged with provenance; derived columns are not yet
set (`price_change`/`price_change_pct` are filled by `addCalculatedFields`,
`is_interpolated` does not exist yet and is modelled as `false`). -/
def collectRecords (all_pool_data : List (String × PoolData)) : List Row :=
  all_pool_data.flatMap (fun p =>
    match p.2.data with
    | none => []
    | some entries =>
      entries.map (fun e =>
        { timestamp := e.timestamp, open_ := e.open_, high := e.high, low := e.low,
          close := e.close, volume := e.volume, pool_name := p.1,
          pool_address := p.2.info.address, token_symbol := p.2.info.token_symbol,
          price_change := 0, price_change_pct := some 0, is_interpolated := false }))

/-- Sorting of a row list by the `timestamp` column, the model of
`df.sort_values('timestamp').reset_index(drop=True)`. -/
def sortByTimestamp (df : List Row) : List Row :=
  df.mergeSort (fun a b => decide (a.timestamp ≤ b.timestamp))

/-- The calculated columns of consolidator.py lines 55-56:
`price_change = close - open` and `price_change_pct = price_change / open * 100`;
a zero `open` makes the vectorised float division produce `inf`/`NaN`
(no exception), modelled as `none`. -/
def addCalculatedFields (r : Row) : Row :=
  { r with
    price_change := r.close - r.open_,
    price_change_pct :=
      if r.open_ = 0 then none else some ((r.close - r.open_) / r.open_ * 100) }

/-- `create_unified_dataframe` from consolidator.py lines 12-61.
When every pool is skipped, `pd.DataFrame([])` has no columns at all and
`df.sort_values('timestamp')` raises `KeyError: 'timestamp'`; that raised
exception is the `Except.error` branch. -/
def create_unified_dataframe (all_pool_data : List (String × PoolData)) :
    Except String (List Row) :=
  let all_records := collectRecords all_pool_data
  if all_records.isEmpty then
    Except.error "KeyError: timestamp"
  else
    Except.ok ((sortByTimestamp all_records).map addCalculatedFields)

/-- Resetting of the `is_interpolated` flag on every existing row,
consolidator.py line 84 (`df['is_interpolated'] = False`): the assignment
overwrites the whole column, including rows that were synthetic. -/
def resetInterpolatedFlag (df : List Row) : List Row :=
  df.map (fun r => { r with is_interpolated := false })

/-- The synthetic rows appended for one over-threshold migration gap
(consolidator.py lines 107-138): `num_points = int(gap_hours / hours_per_point)`
rows at `last_before.timestamp + i * hours_per_point * 3600` for
`i = 1..num_points`, with linearly interpolated price, a triangular
volume taper that peaks at the gap midpoint, composite provenance label,
zeroed derived fields and `is_interpolated = True`. -/
def interpGapRows (hours_per_point : Int) (last_before first_after : Row) : List Row :=
  (List.range' 1
      ((first_after.timestamp - last_before.timestamp) / (hours_per_point * 3600)).toNat).map
    (fun (i : ℕ) =>
      let interval_seconds : Int := hours_per_point * 3600
      let time_gap_seconds : Int := first_after.timestamp - last_before.timestamp
      let frac : ℚ := (((i : Int) * interval_seconds : Int) : ℚ) / (time_gap_seconds : ℚ)
      let interp_ts : Int := last_before.timestamp + (i : Int) * interval_seconds
      let interp_price : ℚ :=
        last_before.close + frac * (first_after.close - last_before.close)
      let vfrac : ℚ := 1 - 2 * abs (frac - 1/2)
      let interp_volume : ℚ := (last_before.volume + first_after.volume) * vfrac * (3/10)
      { timestamp := interp_ts, open_ := interp_price,
        high := interp_price * (1001/1000), low := interp_price * (999/1000),
        close := interp_price, volume := interp_volume,
        pool_name := last_before.pool_name ++ "_to_" ++ first_after.pool_name,
        pool_address := last_before.pool_address,
        token_symbol := last_before.token_symbol,
        price_change := 0, price_change_pct := some 0, is_interpolated := true })

/-- One iteration of the migration loop of `interpolate_migration_gaps`
(consolidator.py lines 87-140) for cutover timestamp `migration_ts`:
locate the last non-interpolated row before the cutover and the first one
at/after it, and if their gap exceeds `hours_per_point` hours append the
`interpGapRows` synthetic rows to the end of the frame (`pd.concat`
appends; sorting only happens at the end of the function). -/
def interpStep (hours_per_point : Int) (df : List Row) (migration_ts : Int) : List Row :=
  match ((df.filter (fun r => r.is_interpolated = false)).filter
          (fun r => decide (r.timestamp < migration_ts))).getLast?,
        ((df.filter (fun r => r.is_interpolated = false)).filter
          (fun r => decide (migration_ts ≤ r.timestamp))).head? with
  | some last_before, some first_after =>
    if hours_per_point * 3600 < first_after.timestamp - last_before.timestamp then
      df ++ interpGapRows hours_per_point last_before first_after
    else df
  | _, _ => df

/-- `interpolate_migration_gaps` from consolidator.py lines 64-145:
sort, overwrite `is_interpolated` with `False` on every row, loop over
the configured migration cutovers appending synthetic rows, then re-sort. -/
def interpolate_migration_gaps (migrations : List Int) (df : List Row)
    (hours_per_point : Int) : List Row :=
  sortByTimestamp
    ((migrations.foldl (interpStep hours_per_point)
      (resetInterpolatedFlag (sortByTimestamp df))))

/-- The summary-statistics record produced by `get_summary_stats`
(consolidator.py lines 179-196). `start_date`/`end_date` are the min/max
of the `date` column, represented by the underlying timestamps. -/
structure SummaryStats where
  total_days : ℕ
  start_date : Int
  end_date : Int
  start_price : ℚ
  end_price : ℚ
  total_change : ℚ
  total_change_pct : Option ℚ
  highest_price : ℚ
  lowest_price : ℚ
  total_volume : ℚ
  avg_daily_volume : ℚ
  pools_mon3y : ℕ
  pools_zera_pool2 : ℕ
  pools_zera_pool3 : ℕ
deriving DecidableEq, Repr

/-- `get_summary_stats` from consolidator.py lines 169-198. On an empty
frame the very first field accesses fail (`df['date'].min()` on a frame
without columns raises KeyError; `df.iloc[0]` raises IndexError), modelled
as `Except.error`; on a nonempty frame every field is computed from the
whole frame as given — there is no filtering on `is_interpolated` anywhere
in the function. A zero `close` in the first row makes the
`total_change_pct` float division non-finite, modelled as `none`. -/
def get_summary_stats (df : List Row) : Except String SummaryStats :=
  match df with
  | [] => Except.error "IndexError: empty dataframe"
  | r0 :: rest =>
    let last := rest.getLastD r0
    Except.ok
      { total_days := df.length,
        start_date := (rest.map Row.timestamp).foldl min r0.timestamp,
        end_date := (rest.map Row.timestamp).foldl max r0.timestamp,
        start_price := r0.close,
        end_price := last.close,
        total_change := last.close - r0.close,
        total_change_pct :=
          if r0.close = 0 then none else some ((last.close - r0.close) / r0.close * 100),
        highest_price := (rest.map Row.high).foldl max r0.high,
        lowest_price := (rest.map Row.low).foldl min r0.low,
        total_volume := (df.map Row.volume).sum,
        avg_daily_volume := (df.map Row.volume).sum / df.length,
        pools_mon3y := df.countP (fun r => r.pool_name = "mon3y"),
        pools_zera_pool2 := df.countP (fun r => r.pool_name = "zera_pool2"),
        pools_zera_pool3 := df.countP (fun r => r.pool_name = "zera_pool3") }

/-! Concrete fixtures used by the claim theorems. -/

/-- A real data point at the epoch, close 2, volume 10, from pool `p`. -/
def rowA : Row :=
  { timestamp := 0, open_ := 2, high := 2, low := 2, close := 2, volume := 10,
    pool_name := "p", pool_address := "ap", token_symbol := "Z",
    price_change := 0, price_change_pct := some 0, is_interpolated := false }

/-- A real data point 6 hours after `rowA`, from pool `q`. -/
def rowB6 : Row :=
  { timestamp := 21600, open_ := 4, high := 4, low := 4, close := 4, volume := 30,
    pool_name := "q", pool_address := "aq", token_symbol := "Z",
    price_change := 0, price_change_pct := some 0, is_interpolated := false }

/-- A real data point 12 hours after `rowA`, from pool `q`. -/
def rowB12 : Row :=
  { timestamp := 43200, open_ := 4, high := 4, low := 4, close := 4, volume := 30,
    pool_name := "q", pool_address := "aq", token_symbol := "Z",
    price_change := 0, price_change_pct := some 0, is_interpolated := false }

/-- The synthetic row the interpolator produces at the midpoint of the
12-hour gap between `rowA` and `rowB12` (i = 1: interpolation fraction
1/2, volume taper 1, price 3, volume (10+30)·1·0.3 = 12). -/
def synthRow1 : Row :=
  { timestamp := 21600, open_ := 3, high := 3003/1000, low := 2997/1000,
    close := 3, volume := 12,
    pool_name := "p_to_q", pool_address := "ap", token_symbol := "Z",
    price_change := 0, price_change_pct := some 0, is_interpolated := true }

/-- The synthetic row the interpolator produces at the far end of the
12-hour gap (i = 2: interpolation fraction 1, volume taper 0, price equal
to `rowB12.close`, timestamp equal to `rowB12.timestamp`). -/
def synthRow2 : Row :=
  { timestamp := 43200, open_ := 4, high := 1001/250, low := 999/250,
    close := 4, volume := 0,
    pool_name := "p_to_q", pool_address := "ap", token_symbol := "Z",
    price_change := 0, price_change_pct := some 0, is_interpolated := true }

/-- A synthetic-flagged point with close 5 at the start of a timeline. -/
def synthRow5 : Row :=
  { timestamp := 0, open_ := 5, high := 5, low := 5, close := 5, volume := 1,
    pool_name := "p_to_q", pool_address := "ap", token_symbol := "Z",
    price_change := 0, price_change_pct := some 0, is_interpolated := true }

/-- A real point with close 7 following `synthRow5`. -/
def realRow7 : Row :=
  { timestamp := 100, open_ := 7, high := 7, low := 7, close := 7, volume := 3,
    pool_name := "mon3y", pool_address := "am", token_symbol := "M",
    price_change := 0, price_change_pct := some 0, is_interpolated := false }

/-- C2 counterexample: the claim says the 12-hour gap (`last_before` at 0,
`first_after` at 43200, `hours_per_point = 6`) yields exactly one synthetic
point, with every synthesized interpolation fraction strictly inside
(0,1). The code computes `num_points = int(12/6) = 2` and loops
`i = 1..2`, so it appends two synthetic rows, at 21600 and at 43200 —
the second with fraction exactly 1, coinciding with `first_after`'s
timestamp. -/
theorem gap_threshold_two_points_counterexample :
    ((interpolate_migration_gaps [21600] [rowA, rowB12] 6).filter
        (fun r => r.is_interpolated)).map Row.timestamp = [21600, 43200] ∧
    ((interpolate_migration_gaps [21600] [rowA, rowB12] 6).filter
        (fun r => r.is_interpolated)).length ≠ 1 := by
  constructor <;>
  · norm_num [interpolate_migration_gaps, interpStep, interpGapRows, sortByTimestamp,
      resetInterpolatedFlag, List.mergeSort, rowA, rowB12,
      List.range', abs_of_nonneg, abs_of_nonpos]

/-- C2 (amended): a gap equal to `hours_per_point` (6 hours, 0 to 21600)
yields zero synthetic points, and the 12-hour gap (0 to 43200) yields
exactly two synthetic points: one at 21600 with interpolation fraction
1/2 and volume taper 1 (close 3 = midpoint, volume 12 = (10+30)·1·0.3),
and one at 43200 with fraction exactly 1 and volume taper 0 (close equal
to `first_after.close`, volume 0); synthesized fractions lie in (0,1],
reaching 1 exactly when the gap is an integer multiple of
`hours_per_point`. -/
theorem gap_threshold_boundary_amended :
    (interpolate_migration_gaps [21600] [rowA, rowB6] 6).filter
        (fun r => r.is_interpolated) = [] ∧
    (interpolate_migration_gaps [21600] [rowA, rowB12] 6).filter
        (fun r => r.is_interpolated) = [synthRow1, synthRow2] := by
  constructor
  · norm_num [interpolate_migration_gaps, interpStep, interpGapRows, sortByTimestamp,
      resetInterpolatedFlag, List.mergeSort, rowA, rowB6, List.range']
  · norm_num [interpolate_migration_gaps, interpStep, interpGapRows, sortByTimestamp,
      resetInterpolatedFlag, List.mergeSort, rowA, rowB12, synthRow1, synthRow2,
      List.range', abs_of_nonneg, abs_of_nonpos]
    rfl

/-- C1 counterexample: the claim says a second interpolation run yields
the same set of `is_interpolated = true` points and no synthetic point
loses its marking. On the 12-hour-gap fixture the first run marks two
rows, but the second run starts with `df['is_interpolated'] = False`
(line 84), which overwrites the column on every row, and then finds no
remaining over-threshold gap, so its output has zero marked rows. -/
theorem interpolation_idempotence_counterexample :
    ((interpolate_migration_gaps [21600] [rowA, rowB12] 6).filter
        (fun r => r.is_interpolated)).length = 2 ∧
    ((interpolate_migration_gaps [21600]
          (interpolate_migration_gaps [21600] [rowA, rowB12] 6) 6).filter
        (fun r => r.is_interpolated)).length = 0 := by
  constructor <;>
  · norm_num [interpolate_migration_gaps, interpStep, interpGapRows, sortByTimestamp,
      resetInterpolatedFlag, List.mergeSort, rowA, rowB12,
      List.range', abs_of_nonneg, abs_of_nonpos]

/-- C4 counterexample: the claim says Summary Statistics on an
all-synthetic Timeline reports a distinct EmptySeries failure.
`get_summary_stats` never inspects `is_interpolated`, so on a timeline
consisting of a single synthetic point it succeeds and returns statistics
computed from that synthetic point. -/
theorem empty_series_counterexample :
    (get_summary_stats [synthRow5]).isOk = true ∧ synthRow5.is_interpolated = true := by
  constructor
  · rfl
  · rfl

/-- C4 (amended): `get_summary_stats` fails only when the frame is
literally empty (and then by an unnamed IndexError/KeyError, modelled as
the error branch), never because the non-synthetic subset is empty: on
any nonempty frame, including an all-synthetic one, it silently returns
statistics computed from all rows. -/
theorem empty_series_amended :
    (∀ df : List Row, (get_summary_stats df).isOk = !df.isEmpty) ∧
    (∃ s, get_summary_stats [synthRow5] = Except.ok s ∧ s.start_price = synthRow5.close) := by
  constructor
  · intro df
    cases df with
    | nil => rfl
    | cons r0 rest => rfl
  · exact ⟨_, rfl, rfl⟩

/-- C3 counterexample: the claim says every summary field depends only on
non-synthetic points and `start_price` equals the close of the first
non-synthetic point. On a timeline whose first row is synthetic with
close 5 followed by a real row with close 7, `get_summary_stats` returns
`start_price = 5`, while the first non-synthetic point has close 7. -/
theorem summary_nonsynthetic_counterexample :
    ((get_summary_stats [synthRow5, realRow7]).toOption.map
        (fun s => s.start_price)) = some 5 ∧
    (([synthRow5, realRow7].filter
        (fun r => r.is_interpolated = false)).head?.map Row.close) = some 7 ∧
    (5 : ℚ) ≠ 7 := by
  refine ⟨rfl, ?_, by norm_num⟩
  norm_num [synthRow5, realRow7]

/-- C6: de-clustering replacement. Two candidate peaks at day 0 (value
10) and day 2 (value 10.0001) with `min_distance = 5` days collapse to
the second alone (a later, strictly more extreme candidate inside the
exclusion window replaces the last kept one), while an equal-magnitude
later candidate (value 10 at day 2) does not replace the first — the
replacement needs strictly greater absolute value. -/
theorem declustering_replacement :
    filter_by_minimum_distance
        [⟨0, 10, MarkerKind.peak⟩, ⟨2, 100001/10000, MarkerKind.peak⟩] 5 =
      [⟨2, 100001/10000, MarkerKind.peak⟩] ∧
    filter_by_minimum_distance
        [⟨0, 10, MarkerKind.peak⟩, ⟨2, 10, MarkerKind.peak⟩] 5 =
      [⟨0, 10, MarkerKind.peak⟩] := by
  constructor <;>
  · norm_num [filter_by_minimum_distance, fbmdStep, List.mergeSort,
      abs_of_pos, abs_of_nonpos]

/-- A one-pool input whose single record has `open == 0`. -/
def zeroOpenInput : List (String × PoolData) :=
  [("p", { info := { address := "ap", token_symbol := "Z" },
           data := some [{ timestamp := 10, open_ := 0, high := 2, low := 0,
                           close := 1, volume := 5 },
                         { timestamp := 20, open_ := 1, high := 3, low := 1,
                           close := 2, volume := 7 }] })]

/-- An input in which every configured source has no data. -/
def allEmptyInput : List (String × PoolData) :=
  [("p", { info := { address := "ap", token_symbol := "Z" }, data := none }),
   ("q", { info := { address := "aq", token_symbol := "Z" }, data := none })]

/-- C8: division-by-zero containment in the Series Merger. Whenever at
least one record is collected, the merge succeeds and returns exactly one
row per collected record; every row whose `open` is zero gets the
undefined/NaN sentinel (`none`) in `price_change_pct`, and every row with
nonzero `open` gets the ordinary percentage — a zero denominator never
drops a row or aborts the merge. -/
theorem division_by_zero_containment (input : List (String × PoolData))
    (h : collectRecords input ≠ []) :
    ∃ rows, create_unified_dataframe input = Except.ok rows ∧
      rows.length = (collectRecords input).length ∧
      ∀ r ∈ rows,
        (r.open_ = 0 → r.price_change_pct = none) ∧
        (r.open_ ≠ 0 →
          r.price_change_pct = some ((r.close - r.open_) / r.open_ * 100)) := by
  refine ⟨(sortByTimestamp (collectRecords input)).map addCalculatedFields, ?_, ?_, ?_⟩
  · unfold create_unified_dataframe
    rw [if_neg (by simpa [List.isEmpty_iff] using h)]
  · rw [List.length_map]
    exact (List.mergeSort_perm (collectRecords input) _).length_eq
  · intro r hr
    rcases List.mem_map.mp hr with ⟨x, _, hx⟩
    subst hx
    unfold addCalculatedFields
    by_cases h0 : x.open_ = 0 <;> simp [h0]

/-- C8 witness: the containment theorem applied to a concrete input with
one `open == 0` record and one ordinary record. -/
theorem division_by_zero_containment_witness :
    collectRecords zeroOpenInput ≠ [] ∧
    ∃ rows, create_unified_dataframe zeroOpenInput = Except.ok rows ∧
      rows.length = (collectRecords zeroOpenInput).length ∧
      ∀ r ∈ rows,
        (r.open_ = 0 → r.price_change_pct = none) ∧
        (r.open_ ≠ 0 →
          r.price_change_pct = some ((r.close - r.open_) / r.open_ * 100)) :=
  ⟨by simp [collectRecords, zeroOpenInput],
   division_by_zero_containment zeroOpenInput (by simp [collectRecords, zeroOpenInput])⟩

/-- C9: implicit empty-merge behaviour. `create_unified_dataframe`
succeeds exactly when at least one record is collected from some source;
when every source contributes nothing, the record list is empty, the
column-less frame has no 'timestamp' to sort on, and the call raises
(the error branch) instead of returning an empty Timeline. -/
theorem empty_merge_raises :
    (∀ input : List (String × PoolData),
      (create_unified_dataframe input).isOk = !(collectRecords input).isEmpty) ∧
    (∀ input : List (String × PoolData),
      (∀ p ∈ input, p.2.data = none) →
        create_unified_dataframe input = Except.error "KeyError: timestamp") := by
  constructor
  · intro input
    unfold create_unified_dataframe
    by_cases h : (collectRecords input).isEmpty <;> simp [h, Except.isOk, Except.toBool]
  · intro input h
    have hnil : collectRecords input = [] := by
      unfold collectRecords
      rw [List.flatMap_eq_nil_iff]
      intro p hp
      rw [h p hp]
    unfold create_unified_dataframe
    rw [hnil]
    rfl

/-- C9 witness: the second part of the empty-merge theorem applied to a
concrete input in which both configured sources have no data. -/
theorem empty_merge_raises_witness :
    (∀ p ∈ allEmptyInput, p.2.data = none) ∧
    create_unified_dataframe allEmptyInput = Except.error "KeyError: timestamp" :=
  ⟨by simp [allEmptyInput], empty_merge_raises.2 allEmptyInput (by simp [allEmptyInput])⟩

/-- C3 (amended): `get_summary_stats` is a reduction over the whole
Timeline as given, with no filtering on the synthetic flag: on any
nonempty frame it succeeds, `start_price`/`end_price` are the close of
the literal first/last row (synthetic or not), and the count, volume
total and global high are taken over all rows including synthetic ones. -/
theorem summary_whole_frame_amended (df : List Row) (h : df ≠ []) :
    ∃ s, get_summary_stats df = Except.ok s ∧
      s.start_price = (df.head h).close ∧
      s.end_price = (df.getLast h).close ∧
      s.total_days = df.length ∧
      s.total_volume = (df.map Row.volume).sum := by
  match df with
  | r0 :: rest =>
    refine ⟨_, rfl, rfl, ?_, rfl, rfl⟩
    rw [List.getLast_eq_getLastD]

/-- C3 witness: the amended summary theorem applied to the concrete
timeline whose first row is synthetic (close 5) and whose last row is
real (close 7): `start_price` is the synthetic close 5. -/
theorem summary_whole_frame_amended_witness :
    ([synthRow5, realRow7] : List Row) ≠ [] ∧
    ∃ s, get_summary_stats [synthRow5, realRow7] = Except.ok s ∧
      s.start_price = 5 ∧ s.end_price = 7 ∧ s.total_days = 2 := by
  refine ⟨by simp, ?_⟩
  obtain ⟨s, h1, h2, h3, h4, _⟩ := summary_whole_frame_amended [synthRow5, realRow7] (by simp)
  exact ⟨s, h1, by simpa [synthRow5] using h2, by simpa [realRow7] using h3, h4⟩

/-- C5 counterexample: the claim says peak detection on any flat series
reports no peaks. On the flat five-point series `[1,1,1,1,1]` with
`w = 2`, `prominence_threshold = 0.1`, the global range is 0, so the
prominence threshold degenerates to 0; the interior candidate index 2 has
prominence 0 ≥ 0 and is reported as a peak. -/
theorem prominence_flat_counterexample :
    find_local_peaks [((0:ℚ),1),(1,1),(2,1),(3,1),(4,1)] 2 (1/10) = [((2:ℚ),1)] ∧
    find_local_peaks [((0:ℚ),1),(1,1),(2,1),(3,1),(4,1)] 2 (1/10) ≠ [] := by
  have h : find_local_peaks [((0:ℚ),1),(1,1),(2,1),(3,1),(4,1)] 2 (1/10) = [((2:ℚ),1)] := by
    norm_num [find_local_peaks, pySlice, listMin, listMax, List.range',
      List.filterMap_cons]
  exact ⟨h, by rw [h]; simp⟩

/-- C5 (amended): the spike series `[1,1,1,5,1,1,1]` with `w = 2`,
`prominence_threshold = 0.1` reports index 3 (value 5) as the unique
peak, and any series with at most `2w = 4` points reports no peaks; but a
flat series is only peak-free below `2w+1` points — with `2w+1` or more
points every interior candidate is reported, because a flat series has
global range 0, so the relative prominence threshold is 0 and the
candidates' zero prominence passes the `≥` test. -/
theorem prominence_filter_amended :
    find_local_peaks [((0:ℚ),1),(1,1),(2,1),(3,5),(4,1),(5,1),(6,1)] 2 (1/10)
        = [((3:ℚ),5)] ∧
    (∀ (df : List (ℚ × ℚ)) (p : ℚ), df.length ≤ 4 → find_local_peaks df 2 p = []) ∧
    find_local_peaks [((0:ℚ),1),(1,1),(2,1),(3,1),(4,1)] 2 (1/10) = [((2:ℚ),1)] ∧
    find_local_peaks [((0:ℚ),1),(1,1),(2,1),(3,1),(4,1),(5,1),(6,1)] 2 (1/10)
        = [((2:ℚ),1),((3:ℚ),1),((4:ℚ),1)] := by
  refine ⟨?_, ?_, ?_, ?_⟩
  · norm_num [find_local_peaks, pySlice, listMin, listMax, List.range',
      List.filterMap_cons]
  · intro df p h
    unfold find_local_peaks
    split
    · rfl
    · rename_i h4
      have hlen : df.length = 4 := le_antisymm h (by omega)
      simp [hlen]
  · norm_num [find_local_peaks, pySlice, listMin, listMax, List.range',
      List.filterMap_cons]
  · norm_num [find_local_peaks, pySlice, listMin, listMax, List.range',
      List.filterMap_cons]

/-- C5 witness: the no-peaks-below-2w+1 clause of the amended prominence
theorem applied to a concrete flat four-point series. -/
theorem prominence_filter_amended_witness :
    ([((0:ℚ),1),(1,1),(2,1),(3,1)] : List (ℚ × ℚ)).length ≤ 4 ∧
    find_local_peaks [((0:ℚ),1),(1,1),(2,1),(3,1)] 2 (1/10) = [] :=
  ⟨by simp, prominence_filter_amended.2.1 [((0:ℚ),1),(1,1),(2,1),(3,1)] (1/10) (by simp)⟩

/-- Every row the migration loop appends carries `is_interpolated = true`;
the step either leaves the frame unchanged or appends such rows at the
end (`pd.concat` at line 138 appends, the re-sort only happens at the end
of the function). -/
theorem interpStep_shape (h : Int) (df : List Row) (m : Int) :
    interpStep h df m = df ∨
    ∃ news : List Row, interpStep h df m = df ++ news ∧
      ∀ r ∈ news, r.is_interpolated = true := by
  unfold interpStep
  split
  · split
    · refine Or.inr ⟨_, rfl, ?_⟩
      intro r hr
      rcases List.mem_map.mp hr with ⟨i, _, hi⟩
      subst hi
      rfl
    · exact Or.inl rfl
  · exact Or.inl rfl

/-- Accounting identity for the migration loop: finishing the fold adds
the same number to the synthetic-row count as to the row count. -/
theorem foldl_interpStep_count (h : Int) :
    ∀ (migs : List Int) (acc : List Row),
      (migs.foldl (interpStep h) acc).countP (fun r => r.is_interpolated) + acc.length =
        acc.countP (fun r => r.is_interpolated) + (migs.foldl (interpStep h) acc).length
  | [], acc => by simp [Nat.add_comm]
  | m :: migs, acc => by
    rw [List.foldl_cons]
    rcases interpStep_shape h acc m with heq | ⟨news, heq, hall⟩
    · rw [heq]
      exact foldl_interpStep_count h migs acc
    · have ih := foldl_interpStep_count h migs (interpStep h acc m)
      have e3 : news.countP (fun r => r.is_interpolated) = news.length :=
        List.countP_eq_length.mpr (fun r hr => by simpa using hall r hr)
      have e1 : (interpStep h acc m).countP (fun r => r.is_interpolated) =
          acc.countP (fun r => r.is_interpolated) + news.length := by
        rw [heq, List.countP_append, e3]
      have e2 : (interpStep h acc m).length = acc.length + news.length := by
        rw [heq, List.length_append]
      omega

/-- Sorting by timestamp preserves the synthetic-row count. -/
theorem sortByTimestamp_countP (df : List Row) (p : Row → Bool) :
    (sortByTimestamp df).countP p = df.countP p :=
  (List.mergeSort_perm df _).countP_eq p

/-- Sorting by timestamp preserves the row count. -/
theorem sortByTimestamp_length (df : List Row) :
    (sortByTimestamp df).length = df.length :=
  (List.mergeSort_perm df _).length_eq

/-- C1 (amended): re-running the Gap Interpolator is *not* idempotent on
the synthetic markings. In general, the rows marked
`is_interpolated = true` in a run's output are exactly the rows that this
very run appended — the run begins by overwriting the flag with `False`
on every input row (line 84), so markings never survive into a second
run. On the 12-hour-gap fixture the second run appends no rows (the gaps
left by the first run are all at most `hours_per_point`), hence its
output has the same length as the first run's output but zero marked
rows, where the first run's output had two. -/
theorem interpolation_rerun_amended :
    (∀ (migs : List Int) (df : List Row) (hpp : Int), 1 ≤ hpp →
      ((interpolate_migration_gaps migs df hpp).filter
          (fun r => r.is_interpolated)).length + df.length =
        (interpolate_migration_gaps migs df hpp).length) ∧
    (interpolate_migration_gaps [21600]
        (interpolate_migration_gaps [21600] [rowA, rowB12] 6) 6).length =
      (interpolate_migration_gaps [21600] [rowA, rowB12] 6).length ∧
    ((interpolate_migration_gaps [21600]
          (interpolate_migration_gaps [21600] [rowA, rowB12] 6) 6).filter
        (fun r => r.is_interpolated)).length = 0 ∧
    ((interpolate_migration_gaps [21600] [rowA, rowB12] 6).filter
        (fun r => r.is_interpolated)).length = 2 := by
  refine ⟨?_, ?_, ?_, ?_⟩
  · intro migs df hpp _
    unfold interpolate_migration_gaps
    rw [← List.countP_eq_length_filter, sortByTimestamp_countP, sortByTimestamp_length]
    have hbase0 : (resetInterpolatedFlag (sortByTimestamp df)).countP
        (fun r => r.is_interpolated) = 0 := by
      unfold resetInterpolatedFlag
      rw [List.countP_map]
      exact List.countP_eq_zero.mpr (fun r _ => by simp [Function.comp])
    have hbaselen : (resetInterpolatedFlag (sortByTimestamp df)).length = df.length := by
      unfold resetInterpolatedFlag
      rw [List.length_map, sortByTimestamp_length]
    have hfold := foldl_interpStep_count hpp migs (resetInterpolatedFlag (sortByTimestamp df))
    omega
  · norm_num [interpolate_migration_gaps, interpStep, interpGapRows, sortByTimestamp,
      resetInterpolatedFlag, List.mergeSort, rowA, rowB12,
      List.range', abs_of_nonneg, abs_of_nonpos]
  · norm_num [interpolate_migration_gaps, interpStep, interpGapRows, sortByTimestamp,
      resetInterpolatedFlag, List.mergeSort, rowA, rowB12,
      List.range', abs_of_nonneg, abs_of_nonpos]
  · norm_num [interpolate_migration_gaps, interpStep, interpGapRows, sortByTimestamp,
      resetInterpolatedFlag, List.mergeSort, rowA, rowB12,
      List.range', abs_of_nonneg, abs_of_nonpos]

/-- C1 witness: the general accounting clause of the amended theorem
applied to the concrete 12-hour-gap run, which appends two rows to the
two input rows. -/
theorem interpolation_rerun_amended_witness :
    (1:Int) ≤ 6 ∧
    ((interpolate_migration_gaps [21600] [rowA, rowB12] 6).filter
        (fun r => r.is_interpolated)).length + ([rowA, rowB12] : List Row).length =
      (interpolate_migration_gaps [21600] [rowA, rowB12] 6).length :=
  ⟨by norm_num, interpolation_rerun_amended.1 [21600] [rowA, rowB12] 6 (by norm_num)⟩

/-- Invariant of the de-clustering scan: starting from a kept stack whose
head is the last kept candidate and whose consecutive entries are at
least `minD` apart (head latest), folding `fbmdStep` over a
date-sorted remainder that lies at or after the head preserves that
shape — an append creates a gap of at least `minD` by the branch
condition, and a replacement only moves the head to a later date, so it
never shrinks the gap to the previous kept entry. -/
theorem foldl_fbmdStep_chain (minD : ℚ) :
    ∀ (l : List MarkerPoint) (a : MarkerPoint) (acc : List MarkerPoint),
      List.Chain' (fun x y => y.date ≤ x.date ∧ minD ≤ x.date - y.date) (a :: acc) →
      (∀ x ∈ l, a.date ≤ x.date) →
      List.Pairwise (fun x y : MarkerPoint => x.date ≤ y.date) l →
      List.Chain' (fun x y => y.date ≤ x.date ∧ minD ≤ x.date - y.date)
        (l.foldl (fbmdStep minD) (a :: acc))
  | [], _, _, hch, _, _ => hch
  | c :: l2, a, acc, hch, hhead, hpw => by
    rw [List.foldl_cons]
    rcases List.pairwise_cons.mp hpw with ⟨hc, hpw2⟩
    by_cases h1 : minD ≤ c.date - a.date
    · have hstep : fbmdStep minD (a :: acc) c = c :: a :: acc := by
        simp [fbmdStep, h1]
      rw [hstep]
      exact foldl_fbmdStep_chain minD l2 c (a :: acc)
        (List.chain'_cons.mpr ⟨⟨hhead c (by simp), h1⟩, hch⟩) hc hpw2
    · by_cases h2 : abs a.value < abs c.value
      · have hstep : fbmdStep minD (a :: acc) c = c :: acc := by
          simp [fbmdStep, h1, h2]
        rw [hstep]
        refine foldl_fbmdStep_chain minD l2 c acc ?_ hc hpw2
        cases acc with
        | nil => exact List.chain'_singleton c
        | cons b acc2 =>
          rcases List.chain'_cons.mp hch with ⟨⟨hba, hgap⟩, hch2⟩
          have hac : a.date ≤ c.date := hhead c (by simp)
          exact List.chain'_cons.mpr ⟨⟨le_trans hba hac, by linarith⟩, hch2⟩
      · have hstep : fbmdStep minD (a :: acc) c = a :: acc := by
          simp [fbmdStep, h1, h2]
        rw [hstep]
        exact foldl_fbmdStep_chain minD l2 a acc hch
          (fun x hx => hhead x (by simp [hx])) hpw2

/-- C10: for every candidate list and every `min_distance_days`, the
output of `filter_by_minimum_distance` with more than one input point is
ordered by date with consecutive kept points at least `min_distance_days`
apart — the replacement rule can only move the last kept point later, so
it never brings it closer to the previously kept point. (Inputs of
length at most one are returned unchanged and have no consecutive pair.) -/
theorem minimum_distance_invariant (points : List MarkerPoint) (minD : ℚ) :
    List.Chain' (fun a b => a.date ≤ b.date ∧ minD ≤ b.date - a.date)
      (filter_by_minimum_distance points minD) := by
  by_cases hlen : points.length ≤ 1
  · have hres : filter_by_minimum_distance points minD = points := by
      simp [filter_by_minimum_distance, hlen]
    rw [hres]
    match points, hlen with
    | [], _ => exact List.chain'_nil
    | [x], _ => exact List.chain'_singleton x
  · have hsorted := @List.sorted_mergeSort MarkerPoint
      (fun a b : MarkerPoint => decide (a.date ≤ b.date))
      (fun a b c hab hbc => by
        simp only [decide_eq_true_eq] at *
        exact le_trans hab hbc)
      (fun a b => by simp [le_total]) points
    cases hs : points.mergeSort (fun a b => decide (a.date ≤ b.date)) with
    | nil =>
      have hres : filter_by_minimum_distance points minD = [] := by
        simp [filter_by_minimum_distance, hlen, hs]
      rw [hres]
      exact List.chain'_nil
    | cons p0 rest =>
      have hres : filter_by_minimum_distance points minD =
          (rest.foldl (fbmdStep minD) [p0]).reverse := by
        simp [filter_by_minimum_distance, hlen, hs]
      rw [hres]
      rw [hs] at hsorted
      rcases List.pairwise_cons.mp hsorted with ⟨hp0, hrest⟩
      have hchain := foldl_fbmdStep_chain minD rest p0 []
        (List.chain'_singleton p0)
        (fun x hx => by simpa using hp0 x hx)
        (hrest.imp (fun h => by simpa using h))
      rw [List.chain'_reverse]
      exact hchain
